import Mathlib

/-!
Verification development for the record/template resolution and rendering
engine of the `just-the-fields` JSON inspection tool (`src/app.js`).

The JavaScript source is shallowly embedded: JSON values become the
`JsonValue` inductive type, JS property access and truthiness are modelled
by explicit helper functions, and every translated function keeps the
source's name and control flow.  HTML output is abstracted to structural
view data (the markup text itself is presentation); every decision the
source makes — which branch renders, which rows appear, which template is
selected — is preserved exactly.
-/

/-- A parsed JSON value.  Numbers are modelled as integers (all numeric
literals relevant to the embedded code paths — `templateVersion`, array
indices, `maxItems`, lengths — are integral). -/
inductive JsonValue where
  | null
  | bool (b : Bool)
  | num (n : Int)
  | str (s : String)
  | arr (xs : List JsonValue)
  | obj (kvs : List (String × JsonValue))

/-- `v === null` (the embedded code never holds `undefined` in a JSON
value position; `undefined` is modelled by `Option.none` around
`JsonValue`). -/
def isNull : JsonValue → Bool
  | .null => true
  | _ => false

/-- JS truthiness of a JSON value (`!!v`).  `NaN` does not arise in this
integral model. -/
def jsTruthy : JsonValue → Bool
  | .null => false
  | .bool b => b
  | .num n => n ≠ 0
  | .str s => s ≠ ""
  | .arr _ => true
  | .obj _ => true

/-- `x && typeof x === 'object'`: a non-null value of JS type `object`,
i.e. a mapping or an array. -/
def jsIsObjectLike : JsonValue → Bool
  | .arr _ => true
  | .obj _ => true
  | _ => false

/-- `String.prototype.trim()` over the character list (the source only
ever trims ASCII content; implemented structurally so concrete template
evaluations reduce in the kernel). -/
def jsTrim (s : String) : String :=
  String.mk
    (((s.toList.dropWhile Char.isWhitespace).reverse.dropWhile
      Char.isWhitespace).reverse)

/-- Decimal digits of a natural number, most significant first
(fuel-based structural recursion so the kernel can evaluate it). -/
def natDigitsAux : Nat → Nat → List Char
  | 0, _ => []
  | fuel + 1, n =>
      if n < 10 then [Char.ofNat (48 + n)]
      else natDigitsAux fuel (n / 10) ++ [Char.ofNat (48 + n % 10)]

/-- `String(n)` for a natural number. -/
def jsNatRepr (n : Nat) : String := String.mk (natDigitsAux (n + 1) n)

/-- `String(n)` for an integer, as JS prints integral numbers. -/
def jsIntRepr : Int → String
  | .ofNat n => jsNatRepr n
  | .negSucc m => "-" ++ jsNatRepr (m + 1)

mutual
/-- JS `String(v)` conversion for JSON values: `null` → `"null"`,
booleans and integers print as in JS, arrays stringify as
`Array.prototype.toString` (comma-joined elements, `null` elements
becoming empty), plain objects as `"[object Object]"`. -/
def jsToString : JsonValue → String
  | .null => "null"
  | .bool b => if b then "true" else "false"
  | .num n => jsIntRepr n
  | .str s => s
  | .arr xs => jsArrJoin xs
  | .obj _ => "[object Object]"

/-- Comma join used by `Array.prototype.toString`. -/
def jsArrJoin : List JsonValue → String
  | [] => ""
  | [x] => jsElemString x
  | x :: y :: xs => jsElemString x ++ "," ++ jsArrJoin (y :: xs)

/-- Element conversion inside `Array.prototype.toString`: `null`
(and `undefined`) become the empty string. -/
def jsElemString : JsonValue → String
  | .null => ""
  | .bool b => if b then "true" else "false"
  | .num n => jsIntRepr n
  | .str s => s
  | .arr xs => jsArrJoin xs
  | .obj _ => "[object Object]"
end

/-- Digits (most significant first) to the number `Number(digits)`
produces. -/
def digitsToNat (ds : List Char) : Nat :=
  ds.foldl (fun n c => n * 10 + (c.toNat - 48)) 0

/-- The canonical array-index strings of JS (`"0"`, or digits without a
leading zero): `arr[s]` is an element access exactly for these. -/
def canonicalIndexOf (s : String) : Option Nat :=
  match s.toList with
  | [] => none
  | c :: cs =>
      if c = '0' ∧ cs = [] then some 0
      else if c.isDigit ∧ c ≠ '0' ∧ cs.all Char.isDigit then
        some (digitsToNat (c :: cs))
      else none

/-- The JSON-valued part of a JS string-keyed property read on an
*array*: the own properties a JSON-born array has — canonical numeric
index strings in range are element accesses, and `"length"` is the
length.  The program's read is a full prototype-chain lookup, so names
of inherited `Array.prototype` members (`toString`, `at`,
`constructor`, ...) additionally resolve to built-in FUNCTION values —
values outside the JSON universe, whose extent is
environment-dependent; this model maps such names to `none`
(`undefined`).  That is a deliberate model boundary, not a claim about
the program: no theorem in this file asserts that a name outside the
canonical-index/`length` set resolves to undefined on an array. -/
def jsArrStringIndex (xs : List JsonValue) (k : String) : Option JsonValue :=
  if k = "length" then some (.num xs.length)
  else
    match canonicalIndexOf k with
    | some n => if n < xs.length then xs.get? n else none
    | none => none

/-- The JSON-valued part of a JS property read `v[k]` for a string key
`k`, with `none` for JS `undefined`.  On mappings this is own-property
lookup; the program's lookup also walks the prototype chain, so names
of inherited `Object.prototype` members (`toString`,
`hasOwnProperty`, ...) resolve to built-in function values — non-JSON
values this model maps to `none`.  That boundary is reachable when the
key is user-controlled (a `match.typeField` or a path's name segment
naming a prototype member); the fixed member names this file reads
through the helper (`layout`, `fields`, `path`, `label`, `format`,
`match`, `requiredKeys`, `typeField`, `typeValue`, `templateName`,
`section`, `itemKeyPath`, `valuePaths`, `maxItems`, `showEmpty`,
`emptyText`, `Name`, `name`) collide with no prototype member, and no
theorem in this file asserts undefinedness for a prototype-member
name.  On arrays it follows `jsArrStringIndex`; on primitives the
autoboxed read of these fixed names is `undefined` (no primitive has
any of them, and `getValueAtPath` guards primitives with
`typeof cur !== 'object'` before any access). -/
def jsGetMember (v : JsonValue) (k : String) : Option JsonValue :=
  match v with
  | .obj kvs => kvs.lookup k
  | .arr xs => jsArrStringIndex xs k
  | _ => none

/-- `Object.prototype.hasOwnProperty.call(v, k)`. -/
def jsHasOwn (v : JsonValue) (k : String) : Bool :=
  match v with
  | .obj kvs => (kvs.lookup k).isSome
  | .arr xs => (jsArrStringIndex xs k).isSome
  | _ => false

/-- ASCII lower-casing, as `String.prototype.toLowerCase` behaves on the
ASCII identifiers this code compares. -/
def jsToLowerCase (s : String) : String :=
  String.mk (s.toList.map Char.toLower)

/-- `String.prototype.includes(sub)`: substring containment. -/
def strIncludes (s sub : String) : Bool :=
  (s.toList.tails).any (fun t => sub.toList.isPrefixOf t)

/-- `a ?? b` (nullish coalescing) where `none` models `undefined`. -/
def jsCoalesce (a b : Option JsonValue) : Option JsonValue :=
  match a with
  | some v => if isNull v then b else some v
  | none => b

/-- `String(raw || '')`-style read used throughout the source: stringify
a truthy value, otherwise the empty string. -/
def jsStringOrEmpty (raw : Option JsonValue) : String :=
  match raw with
  | some v => if jsTruthy v then jsToString v else ""
  | none => ""

/-- Maximal non-whitespace runs of a character list (`cur` carries the
run being read, in reverse). -/
def wsWordsAux : List Char → List Char → List String
  | [], [] => []
  | [], cur => [String.mk cur.reverse]
  | ch :: rest, cur =>
      if ch.isWhitespace then
        if cur.isEmpty then wsWordsAux rest []
        else String.mk cur.reverse :: wsWordsAux rest []
      else wsWordsAux rest (ch :: cur)

/-- `s.replace(/\s+/g, ' ').trim()`: collapse whitespace runs and trim
(equivalently: join the non-whitespace words with single spaces). -/
def collapseWs (s : String) : String :=
  String.intercalate " " (wsWordsAux s.toList [])

/-- `safeOneLine` (src/app.js:181): normalize to a single readable line,
truncating at `maxLen` characters with an ellipsis. -/
def safeOneLine (s : String) (maxLen : Nat) : String :=
  let str := collapseWs s
  if str = "" then ""
  else if str.length > maxLen then
    String.mk (str.toList.take maxLen) ++ "…"
  else str

/- ------------------------------------------------------------------
   Path Resolver (src/app.js:1683 `getValueAtPath`)

   The tokenizer embeds the JS regex scan
   `/[^.[\]]+|\[(\d+)\]/g` exactly: at each position the engine first
   tries a maximal run of characters other than `.`/`[`/`]` (a name
   token), then a bracketed digit group (an index token); where neither
   matches the scan advances one character.  The state machine below
   consumes one character per step, which makes it structurally
   terminating on any input string, malformed or not.
   ------------------------------------------------------------------ -/

/-- A path token: a name segment, or a bracketed numeric index. -/
inductive PathToken where
  | name (s : String)
  | index (n : Nat)
  deriving DecidableEq, Repr

/-- Scanner state: between tokens, inside a name run (collected in
reverse), or inside a `[digits` candidate (digits collected in
reverse). -/
inductive TokState where
  | start
  | word (cur : List Char)
  | bracket (ds : List Char)

/-- One-character-at-a-time embedding of the regex scan.  A failed
bracket candidate re-reads its digits as the head of a name run, exactly
as the regex engine finds the next match one position later. -/
def tokenizeFrom : TokState → List Char → List PathToken
  | .start, [] => []
  | .word cur, [] => [.name (String.mk cur.reverse)]
  | .bracket ds, [] =>
      if ds.isEmpty then [] else [.name (String.mk ds.reverse)]
  | .start, c :: rest =>
      if c = '[' then tokenizeFrom (.bracket []) rest
      else if c = '.' ∨ c = ']' then tokenizeFrom .start rest
      else tokenizeFrom (.word [c]) rest
  | .word cur, c :: rest =>
      if c = '[' then
        .name (String.mk cur.reverse) :: tokenizeFrom (.bracket []) rest
      else if c = '.' ∨ c = ']' then
        .name (String.mk cur.reverse) :: tokenizeFrom .start rest
      else tokenizeFrom (.word (c :: cur)) rest
  | .bracket ds, c :: rest =>
      if c.isDigit then tokenizeFrom (.bracket (c :: ds)) rest
      else if c = ']' then
        if ds.isEmpty then tokenizeFrom .start rest
        else .index (digitsToNat ds.reverse) :: tokenizeFrom .start rest
      else if c = '.' then
        if ds.isEmpty then tokenizeFrom .start rest
        else .name (String.mk ds.reverse) :: tokenizeFrom .start rest
      else if c = '[' then
        if ds.isEmpty then tokenizeFrom (.bracket []) rest
        else .name (String.mk ds.reverse) :: tokenizeFrom (.bracket []) rest
      else tokenizeFrom (.word (c :: ds)) rest

/-- Tokenize a full path string. -/
def tokenizePath (path : String) : List PathToken :=
  tokenizeFrom .start path.toList

/-- The traversal loop of `getValueAtPath`.  The source lets `cur`
become `undefined` mid-loop and returns `undefined` on the next
iteration's `cur == null` check (or at the end); both collapse to an
immediate `none` here, which is observably identical. -/
def walkPath : JsonValue → List PathToken → Option JsonValue
  | cur, [] => some cur
  | cur, t :: ts =>
      if isNull cur then none
      else
        match t with
        | .index n =>
            match cur with
            | .arr xs =>
                match xs.get? n with
                | some v => walkPath v ts
                | none => none
            | _ => none
        | .name s =>
            match cur with
            | .obj kvs =>
                match kvs.lookup s with
                | some v => walkPath v ts
                | none => none
            | .arr xs =>
                match jsArrStringIndex xs s with
                | some v => walkPath v ts
                | none => none
            | _ => none

/-- `getValueAtPath` (src/app.js:1683): resolve a dotted/bracketed path
against an arbitrary JSON value.  `none` models JS `undefined`. -/
def getValueAtPath (obj : JsonValue) (path : String) : Option JsonValue :=
  if path = "" then none
  else if isNull obj then none
  else walkPath obj (tokenizePath path)

/- ------------------------------------------------------------------
   Record Extractor (src/app.js:1019 `extractRecords`)
   ------------------------------------------------------------------ -/

/-- The result of record extraction: the record list and a JSONPath-ish
provenance hint. -/
structure ExtractResult where
  records : List JsonValue
  sourcePath : Option String

/-- The fixed, ordered, case-variant container-key list scanned on
mapping payloads. -/
def candidateContainerKeys : List String :=
  ["items", "results", "data", "value", "records", "issues", "rfis",
   "submittals", "Issues", "RFIs", "Submittals", "Items", "Results",
   "Data", "Value", "Records"]

/-- First candidate key whose value on the mapping is an array. -/
def findFirstArrayContainer (kvs : List (String × JsonValue)) :
    List String → Option (String × List JsonValue)
  | [] => none
  | k :: ks =>
      match kvs.lookup k with
      | some (.arr ys) => some (k, ys)
      | _ => findFirstArrayContainer kvs ks

/-- `extractRecords` (src/app.js:1019).  Note the element filter is the
source's `x && typeof x === 'object'`, which keeps arrays as well as
mappings. -/
def extractRecords (json : JsonValue) : ExtractResult :=
  match json with
  | .arr xs => ⟨xs.filter jsIsObjectLike, some "$"⟩
  | .obj kvs =>
      match findFirstArrayContainer kvs candidateContainerKeys with
      | some (k, ys) => ⟨ys.filter jsIsObjectLike, some ("$." ++ k)⟩
      | none => ⟨[.obj kvs], some "$"⟩
  | _ => ⟨[], none⟩

/- ------------------------------------------------------------------
   Type Classifier (src/app.js:1312 `detectRecordTypeFromObject`,
   src/app.js:989 `detectRecordType`)
   ------------------------------------------------------------------ -/

/-- The coarse record-type tag. -/
inductive RecordType where
  | Issue
  | RFI
  | Submittal
  | Generic
  deriving DecidableEq, Repr

/-- `firstString` (src/app.js:1394): first key whose value is a string
with non-empty trim, returning the trimmed value. -/
def firstString (obj : JsonValue) : List String → Option String
  | [] => none
  | k :: ks =>
      match jsGetMember obj k with
      | some (.str s) =>
          if jsTrim s ≠ "" then some (jsTrim s) else firstString obj ks
      | _ => firstString obj ks

/-- `hasAny` (src/app.js:1413): true if any of the keys exists on the
object. -/
def hasAny (obj : JsonValue) (keys : List String) : Bool :=
  keys.any (fun k => jsHasOwn obj k)

/-- The explicit hint field names checked by the classifier. -/
def hintFieldKeys : List String :=
  ["type", "Type", "entity", "Entity", "resource", "Resource",
   "recordType", "RecordType"]

/-- `detectRecordTypeFromObject` (src/app.js:1312): hint fields first,
then key-presence shape heuristics in the fixed order Issue, RFI,
Submittal. -/
def detectRecordTypeFromObject (obj : JsonValue) : RecordType :=
  match obj with
  | .obj _ =>
      let hinted : Option RecordType :=
        match firstString obj hintFieldKeys with
        | some hint =>
            let norm := jsToLowerCase hint
            if strIncludes norm "issue" then some .Issue
            else if norm = "rfi" ∨ strIncludes norm "request for information"
              then some .RFI
            else if strIncludes norm "submittal" then some .Submittal
            else none
        | none => none
      match hinted with
      | some t => t
      | none =>
          let has := fun k => jsHasOwn obj k
          let issueSignals :=
            (has "Title" || has "title") &&
            (has "Status" || has "status") &&
            (has "Priority" || has "priority") &&
            (has "AssignedTo" || has "assignedTo" ||
             has "Author" || has "author")
          let issueExtraSignals :=
            has "Viewpoints" || has "viewpoints" ||
            has "Disciplines" || has "disciplines" ||
            has "History" || has "history"
          if issueSignals && issueExtraSignals then .Issue
          else
            let rfiSignals :=
              hasAny obj ["Question", "question", "RfiQuestion",
                          "rfiQuestion"] ||
              hasAny obj ["Answer", "answer", "Response", "response"] ||
              (hasAny obj ["BallInCourt", "ballInCourt", "DueDate",
                           "dueDate"] &&
               hasAny obj ["RfiNumber", "rfiNumber", "RfiId", "rfiId"])
            if rfiSignals then .RFI
            else
              let submittalSignals :=
                hasAny obj ["SpecSection", "specSection",
                            "SpecificationSection"] ||
                hasAny obj ["Revision", "revision", "RevisionNumber"] ||
                hasAny obj ["SubmittalNumber", "submittalNumber",
                            "SubmittalId", "submittalId"] ||
                (hasAny obj ["ReviewStatus", "reviewStatus", "ReviewDate",
                             "reviewDate"] &&
                 hasAny obj ["DueDate", "dueDate"])
              if submittalSignals then .Submittal else .Generic
  | _ => .Generic

/-- `detectRecordType` (src/app.js:989): extract records, classify each,
and return the shared type only when the set of per-record types is a
singleton (the JS `Set` size check is modelled by `List.dedup`). -/
def detectRecordType (json : JsonValue) : RecordType :=
  let records := (extractRecords json).records
  if records.isEmpty then .Generic
  else
    match (records.map detectRecordTypeFromObject).dedup with
    | [t] => t
    | _ => .Generic

/- ------------------------------------------------------------------
   Dataset auto-detection (src/app.js:1070 `isLargeFlatArrayDataset`)

   The ratio comparisons are carried out in ℚ.  The JS source uses
   IEEE doubles; for the integer-over-integer ratios computed here
   (denominators bounded far below 2^52) double rounding can never
   cross the 0.6 / 0.25 thresholds, so the rational model decides each
   comparison identically.
   ------------------------------------------------------------------ -/

/-- The sampled elements: up to 25 mapping-typed elements
(`x && typeof x === 'object' && !Array.isArray(x)`). -/
def datasetSample (xs : List JsonValue) : List JsonValue :=
  (xs.filter (fun x => match x with | .obj _ => true | _ => false)).take 25

/-- `Object.keys` of a sampled element (samples are always mappings). -/
def objKeys : JsonValue → List String
  | .obj kvs => kvs.map Prod.fst
  | _ => []

/-- All keys observed across the sample (the JS `Set` union; only
membership and size are consumed). -/
def datasetAllKeys (sample : List JsonValue) : List String :=
  (sample.map objKeys).flatten.dedup

/-- A key is "common" when it appears in at least 60% of the sampled
items: the source compares `hits / keySets.length >= 0.6`; this is the
cross-multiplied integer form `5 * hits ≥ 3 * len`, exactly equivalent
for the non-empty samples that reach it (and the ratio form is restated
and proved equivalent in the dataset theorem). -/
def keyIsCommon (keySets : List (List String)) (k : String) : Bool :=
  3 * keySets.length ≤ 5 * (keySets.filter (fun s => k ∈ s)).length

/-- Number of keys present in at least 60% of sampled items. -/
def datasetCommonCount (sample : List JsonValue) : Nat :=
  ((datasetAllKeys sample).filter (keyIsCommon (sample.map objKeys))).length

/-- Ratio of common keys to all observed keys (`0` when no keys were
observed, matching the source's early `allKeys.size === 0` exit). -/
def datasetCommonRatio (sample : List JsonValue) : ℚ :=
  (datasetCommonCount sample : ℚ) / ((datasetAllKeys sample).length : ℚ)

/-- Total number of fields across the sample. -/
def datasetTotalVals (sample : List JsonValue) : Nat :=
  (sample.map (fun o => (objKeys o).length)).sum

/-- Number of nested (object- or array-valued, non-null) fields across
the sample. -/
def datasetNestedVals (sample : List JsonValue) : Nat :=
  (sample.map (fun o =>
    match o with
    | .obj kvs => (kvs.filter (fun kv => jsIsObjectLike kv.2)).length
    | _ => 0)).sum

/-- Ratio of nested fields to total fields, defaulting to 1 when the
sample has no fields (`totalVals ? nestedVals / totalVals : 1`). -/
def datasetNestedRatio (sample : List JsonValue) : ℚ :=
  if datasetTotalVals sample ≠ 0 then
    (datasetNestedVals sample : ℚ) / (datasetTotalVals sample : ℚ)
  else 1

/-- `isLargeFlatArrayDataset` (src/app.js:1070).  The two final ratio
thresholds are the source's `commonRatio >= 0.25 && nestedRatio <= 0.25`
in cross-multiplied integer form (0.25 = 1/4 is exact; the `totalVals`
ternary default of 1 makes an all-empty sample fail the nested check,
subsumed here by `totalVals = 0` failing `4 * nested ≤ total` only when
also `nested = 0` — hence the explicit guard retained from the source's
`allKeys.size === 0` early exit, which covers exactly that case). -/
def datasetCheckArr (xs : List JsonValue) : Bool :=
  if xs.length < 80 then false
  else if (datasetSample xs).length < 10 then false
  else if (datasetAllKeys (datasetSample xs)).length = 0 then false
  else
    (4 * datasetCommonCount (datasetSample xs) ≥
      (datasetAllKeys (datasetSample xs)).length)
    && (4 * datasetNestedVals (datasetSample xs) ≤
      datasetTotalVals (datasetSample xs))

def isLargeFlatArrayDataset (json : JsonValue) : Bool :=
  match json with
  | .arr xs => datasetCheckArr xs
  | _ => false

/- ------------------------------------------------------------------
   kvlist rendering (src/app.js defines `renderKvListValue` four times:
   lines 2391, 2491, 2590 and 2690; JS function declarations hoist, so
   the LAST definition, line 2690 — the one without `showEmpty`
   support — is the one that actually runs).

   Markup is abstracted to the list of rendered rows: the source emits
   one `<div class="kvlist-row">` per pushed `(key, finalText)` pair
   and returns `''` exactly when the row list is empty, so an empty
   row list here is the source's falsy `''` return.
   ------------------------------------------------------------------ -/

/-- The default `valuePaths` (`TextValue`, then the names of a
`PredefinedValues` array, then the first predefined value's name). -/
def defaultKvValuePaths : List String :=
  ["TextValue", "PredefinedValues.Name", "PredefinedValues[0].Name"]

/-- `itemKeyPath` resolution: `String(c.itemKeyPath || 'Name').trim() ||
'Name'`. -/
def kvItemKeyPath (cfg : JsonValue) : String :=
  let s := jsTrim (match jsGetMember cfg "itemKeyPath" with
    | some v => if jsTruthy v then jsToString v else "Name"
    | none => "Name")
  if s = "" then "Name" else s

/-- `valuePaths` resolution: a declared non-empty array is stringified,
trimmed and filtered of falsy entries; otherwise the defaults. -/
def kvValuePaths (cfg : JsonValue) : List String :=
  match jsGetMember cfg "valuePaths" with
  | some (.arr ps) =>
      if ps.isEmpty then defaultKvValuePaths
      else
        (ps.map (fun p => jsTrim ((if jsTruthy p then jsToString p else "")))
          ).filter (· ≠ "")
  | _ => defaultKvValuePaths

/-- `maxItems` resolution of the effective (line 2690) definition:
`Number.isFinite(c.maxItems) ? Math.max(1, c.maxItems) : 6`. -/
def kvMaxItems (cfg : JsonValue) : Int :=
  match jsGetMember cfg "maxItems" with
  | some (.num n) => max 1 n
  | _ => 6

/-- The per-item value search: try each value path in order; an
array-valued hit contributes the comma-joined `Name ?? name` entries of
its elements if any survive, a primitive hit contributes its string
form when non-blank.  Returns the final `String(val)` text. -/
def kvFindValue (item : JsonValue) : List String → Option String
  | [] => none
  | vp :: vps =>
      match getValueAtPath item vp with
      | some (.arr vs) =>
          let names :=
            ((vs.map (fun x =>
                if jsIsObjectLike x then
                  jsCoalesce (jsGetMember x "Name") (jsGetMember x "name")
                else some x)).filterMap (fun r =>
                  match r with
                  | some v => if isNull v then none else some v
                  | none => none)).map (fun v => jsTrim (jsToString v))
              |>.filter (· ≠ "")
          if names ≠ [] then some (String.intercalate ", " names)
          else kvFindValue item vps
      | some v =>
          if ¬ isNull v ∧ jsTrim (jsToString v) ≠ "" then some (jsToString v)
          else kvFindValue item vps
      | none => kvFindValue item vps

/-- The label derived from `itemKeyPath`: `kRaw == null ? '' :
String(kRaw).trim()`. -/
def kvItemKey (item : JsonValue) (itemKeyPath : String) : String :=
  match getValueAtPath item itemKeyPath with
  | none => ""
  | some v => if isNull v then "" else jsTrim (jsToString v)

/-- Row loop of the effective `renderKvListValue` (line 2690): skip
non-mapping items and items without a usable label, drop rows with no
resolved value, stop once `maxItems` rows were pushed. -/
def kvRows (itemKeyPath : String) (valuePaths : List String)
    (maxItems : Int) : List JsonValue → List (String × String) →
    List (String × String)
  | [], rows => rows
  | item :: rest, rows =>
      match item with
      | .obj _ =>
          let key := kvItemKey item itemKeyPath
          if key = "" then kvRows itemKeyPath valuePaths maxItems rest rows
          else
            match kvFindValue item valuePaths with
            | none => kvRows itemKeyPath valuePaths maxItems rest rows
            | some valText =>
                let rows' := rows ++ [(key, valText)]
                if (rows'.length : Int) ≥ maxItems then rows'
                else kvRows itemKeyPath valuePaths maxItems rest rows'
      | _ => kvRows itemKeyPath valuePaths maxItems rest rows

/-- The effective `renderKvListValue` (src/app.js:2690, the last and
therefore hoisting-winning definition): note it has NO `showEmpty`
handling — rows whose value paths resolve to nothing are dropped
unconditionally. -/
def renderKvListValue (arrValue cfg : JsonValue) : List (String × String) :=
  match arrValue with
  | .arr items =>
      if items.isEmpty then []
      else kvRows (kvItemKeyPath cfg) (kvValuePaths cfg) (kvMaxItems cfg)
        items []
  | _ => []

/-- `showEmpty` resolution of the shadowed definition:
`Boolean(c.showEmpty)`. -/
def kvShowEmpty (cfg : JsonValue) : Bool :=
  match jsGetMember cfg "showEmpty" with
  | some v => jsTruthy v
  | none => false

/-- `emptyText` resolution of the shadowed definition. -/
def kvEmptyText (cfg : JsonValue) : String :=
  match jsGetMember cfg "emptyText" with
  | some (.str s) => if jsTrim s ≠ "" then jsTrim s else "(empty)"
  | _ => "(empty)"

/-- Row loop of the SHADOWED `renderKvListValue` (src/app.js:2590):
when `showEmpty` is set, a row with no resolved value renders with
`emptyText` instead of being dropped. -/
def kvRowsShowEmpty (itemKeyPath : String) (valuePaths : List String)
    (maxItems : Int) (showEmpty : Bool) (emptyText : String) :
    List JsonValue → List (String × String) → List (String × String)
  | [], rows => rows
  | item :: rest, rows =>
      match item with
      | .obj _ =>
          let key := kvItemKey item itemKeyPath
          if key = "" then
            kvRowsShowEmpty itemKeyPath valuePaths maxItems showEmpty
              emptyText rest rows
          else
            let finalText :=
              match kvFindValue item valuePaths with
              | some valText => valText
              | none => if showEmpty then emptyText else ""
            if finalText = "" then
              kvRowsShowEmpty itemKeyPath valuePaths maxItems showEmpty
                emptyText rest rows
            else
              let rows' := rows ++ [(key, finalText)]
              if (rows'.length : Int) ≥ maxItems then rows'
              else kvRowsShowEmpty itemKeyPath valuePaths maxItems showEmpty
                emptyText rest rows'
      | _ =>
          kvRowsShowEmpty itemKeyPath valuePaths maxItems showEmpty
            emptyText rest rows

/-- The SHADOWED `renderKvListValue` definition (src/app.js:2590, the
`showEmpty`-aware duplicate that the later line-2690 declaration
overrides under JS function hoisting).  Its `maxItems` uses
`Math.max(1, Math.floor(c.maxItems))`; on the integral number model the
floor is the identity, so `kvMaxItems` is reused. -/
def renderKvListValueShowEmpty (arrValue cfg : JsonValue) :
    List (String × String) :=
  match arrValue with
  | .arr items =>
      if items.isEmpty then []
      else kvRowsShowEmpty (kvItemKeyPath cfg) (kvValuePaths cfg)
        (kvMaxItems cfg) (kvShowEmpty cfg) (kvEmptyText cfg) items []
  | _ => []

/- ------------------------------------------------------------------
   Field-hit counting (src/app.js:1830 `countTemplateFieldHits`)
   ------------------------------------------------------------------ -/

/-- `String(f.path || '').trim()`-style field-string read. -/
def fieldStringProp (f : JsonValue) (k : String) : String :=
  jsTrim (jsStringOrEmpty (jsGetMember f k))

/-- `String(f.format || 'text').trim().toLowerCase()`. -/
def fieldFormat (f : JsonValue) : String :=
  jsToLowerCase (jsTrim (match jsGetMember f "format" with
    | some v => if jsTruthy v then jsToString v else "text"
    | none => "text"))

/-- The contribution of one declared field to the hit count: 1 when its
path resolves on the record (a `kvlist` field additionally requires a
non-empty rendered list). -/
def fieldHit (record f : JsonValue) : Nat :=
  if ¬ jsIsObjectLike f then 0
  else
    let p := fieldStringProp f "path"
    if p = "" then 0
    else
      match getValueAtPath record p with
      | none => 0
      | some v =>
          if fieldFormat f = "kvlist" then
            if (renderKvListValue v f).isEmpty then 0 else 1
          else 1

/-- The hits contributed by one section. -/
def sectionHits (record sec : JsonValue) : Nat :=
  if ¬ jsIsObjectLike sec then 0
  else
    let fields := match jsGetMember sec "fields" with
      | some (.arr fs) => fs
      | _ => []
    (fields.map (fieldHit record)).sum

/-- `countTemplateFieldHits` (src/app.js:1830). -/
def countTemplateFieldHits (template record : JsonValue) : Nat :=
  if ¬ jsIsObjectLike template then 0
  else if ¬ jsIsObjectLike record then 0
  else
    match jsGetMember template "layout" with
    | some (.arr secs) => (secs.map (sectionHits record)).sum
    | _ => 0

/- ------------------------------------------------------------------
   Template validation (src/app.js:3591 `validateTemplate`)
   ------------------------------------------------------------------ -/

/-- Validation outcome: `ok` models `{ ok: true, error: null }`, `err`
models `{ ok: false, error }` with the source's message. -/
inductive VResult where
  | ok
  | err (msg : String)
  deriving DecidableEq, Repr

/-- Per-field structural checks (index is only used in the message). -/
def validateFields (si : Nat) (fi : Nat) : List JsonValue → VResult
  | [] => .ok
  | f :: fs =>
      match f with
      | .obj fkvs =>
          (match fkvs.lookup "path" with
          | some (.str p) =>
              if jsTrim p = "" then
                .err ("layout[" ++ jsNatRepr si ++ "].fields[" ++
                  jsNatRepr fi ++ "].path must be a string.")
              else
                match fkvs.lookup "label" with
                | some (.str l) =>
                    if jsTrim l = "" then
                      .err ("layout[" ++ jsNatRepr si ++ "].fields[" ++
                        jsNatRepr fi ++ "].label must be a string.")
                    else validateFields si (fi + 1) fs
                | _ =>
                    .err ("layout[" ++ jsNatRepr si ++ "].fields[" ++
                      jsNatRepr fi ++ "].label must be a string.")
          | _ =>
              .err ("layout[" ++ jsNatRepr si ++ "].fields[" ++
                jsNatRepr fi ++ "].path must be a string."))
      | _ =>
          .err ("layout[" ++ jsNatRepr si ++ "].fields[" ++ jsNatRepr fi ++
            "] must be an object.")

/-- Per-section structural checks. -/
def validateSections (si : Nat) : List JsonValue → VResult
  | [] => .ok
  | sec :: secs =>
      match sec with
      | .obj skvs =>
          (match skvs.lookup "section" with
          | some (.str s) =>
              if jsTrim s = "" then
                .err ("layout[" ++ jsNatRepr si ++
                  "].section must be a string.")
              else
                match skvs.lookup "fields" with
                | some (.arr fs) =>
                    (match validateFields si 0 fs with
                    | .ok => validateSections (si + 1) secs
                    | e => e)
                | _ =>
                    .err ("layout[" ++ jsNatRepr si ++
                      "].fields must be an array.")
          | _ =>
              .err ("layout[" ++ jsNatRepr si ++
                "].section must be a string."))
      | _ => .err ("layout[" ++ jsNatRepr si ++ "] must be an object.")

/-- Optional-block sanity check shared by `match` and `recordLabel`:
when declared non-null the block must be a non-array object, and its
listed sub-key, when declared non-null, must be an array. -/
def validateOptionalBlock (kvs : List (String × JsonValue))
    (blockKey subKey blockMsg subMsg : String) : VResult :=
  match kvs.lookup blockKey with
  | none => .ok
  | some .null => .ok
  | some (.obj mkvs) =>
      (match mkvs.lookup subKey with
      | none => .ok
      | some .null => .ok
      | some (.arr _) => .ok
      | some _ => .err subMsg)
  | some _ => .err blockMsg

/-- `validateTemplate` (src/app.js:3591): structural validation only,
checks performed in the source's order with its error strings. -/
def validateTemplate (t : JsonValue) : VResult :=
  match t with
  | .obj kvs =>
      match kvs.lookup "templateVersion" with
      | some (.num 1) =>
        match kvs.lookup "templateName" with
        | some (.str nm) =>
            if jsTrim nm = "" then
              .err "templateName must be a non-empty string."
            else
              match kvs.lookup "layout" with
              | some (.arr secs) =>
                  (match validateSections 0 secs with
                  | .ok =>
                      (match validateOptionalBlock kvs "match" "requiredKeys"
                          "match must be an object if provided."
                          "match.requiredKeys must be an array if provided."
                        with
                      | .ok =>
                          validateOptionalBlock kvs "recordLabel" "fields"
                            "recordLabel must be an object if provided."
                            "recordLabel.fields must be an array if provided."
                      | e => e)
                  | e => e)
              | _ => .err "layout must be an array of sections."
        | _ => .err "templateName must be a non-empty string."
      | _ => .err "templateVersion must be 1."
  | _ => .err "Template must be a JSON object."

/- ------------------------------------------------------------------
   Template matching (src/app.js:3857 `templateMatchesRecord`)
   ------------------------------------------------------------------ -/

/-- The `requiredKeys` loop: every string entry with a non-empty trim
must exist as a direct key on the record (other entries are skipped). -/
def requiredKeysOk (record : JsonValue) (ks : List JsonValue) : Bool :=
  ks.all (fun k =>
    match k with
    | .str s => if jsTrim s = "" then true else jsHasOwn record s
    | _ => true)

/-- The `typeField`/`typeValue` constraint: active only when
`typeField` is a string with non-empty trim AND `typeValue != null`; the
trimmed string form of `record[typeField]` must then equal the trimmed
string form of `typeValue` (a null/absent record value fails). -/
def typeFieldOk (record m : JsonValue) : Bool :=
  match jsGetMember m "typeField" with
  | some (.str tf) =>
      if jsTrim tf = "" then true
      else
        match jsGetMember m "typeValue" with
        | none => true
        | some .null => true
        | some tv =>
            let expected := jsTrim (jsToString tv)
            match jsGetMember record (jsTrim tf) with
            | none => false
            | some .null => false
            | some actual => jsTrim (jsToString actual) = expected
  | _ => true

/-- The `requiredKeys` gate of the match block: skipped unless a
non-empty array is declared. -/
def requiredKeysCheck (record m : JsonValue) : Bool :=
  match jsGetMember m "requiredKeys" with
  | some (.arr ks) => if ks.isEmpty then true else requiredKeysOk record ks
  | _ => true

/-- The body of the declared `match` block: a non-object block means
"apply broadly", otherwise both gates must pass. -/
def matchBlockOk (record m : JsonValue) : Bool :=
  if ¬ jsIsObjectLike m then true
  else requiredKeysCheck record m && typeFieldOk record m

/-- `templateMatchesRecord` (src/app.js:3857).  A template or record
that is not a non-null object fails outright; a missing or non-object
`match` block means "apply broadly". -/
def templateMatchesRecord (tpl record : JsonValue) : Bool :=
  if ¬ jsIsObjectLike tpl then false
  else if ¬ jsIsObjectLike record then false
  else
    match jsGetMember tpl "match" with
    | none => true
    | some m => matchBlockOk record m

/- ------------------------------------------------------------------
   Template registry and selection (src/app.js:3756, 3777, 3825)
   ------------------------------------------------------------------ -/

/-- A registry entry as stored in `state.templates` (the `name`,
`rawText` and `sourceFileName` attributes play no role in selection and
are omitted). -/
structure TemplateEntry where
  id : String
  template : JsonValue

/-- `TEMPLATE_AUTO_ID` (src/app.js:25). -/
def TEMPLATE_AUTO_ID : String := "__auto__"

/-- The slice of global `state` the selection logic reads: the template
registry and the dropdown selection (`""` models the falsy
no-selection value). -/
structure SessionState where
  templates : List TemplateEntry
  activeTemplateId : String

/-- `requiredKeysCount` of the Auto score: declared `requiredKeys`
entries filtered by truthiness. -/
def entryRequiredKeysCount (tpl : JsonValue) : Nat :=
  let m := if jsIsObjectLike tpl then jsGetMember tpl "match" else none
  match m with
  | some mv =>
      match jsGetMember mv "requiredKeys" with
      | some (.arr ks) => (ks.filter jsTruthy).length
      | _ => 0
  | none => 0

/-- `hasTypeField` of the Auto score. -/
def entryHasTypeField (tpl : JsonValue) : Bool :=
  let m := if jsIsObjectLike tpl then jsGetMember tpl "match" else none
  match m with
  | some mv =>
      match jsGetMember mv "typeField" with
      | some (.str s) => jsTrim s ≠ ""
      | _ => false
  | none => false

/-- The Auto score: `hits*1000 + requiredKeysCount*10 +
(hasTypeField ? 100 : 0)`. -/
def autoScore (tpl record : JsonValue) : Int :=
  (countTemplateFieldHits tpl record : Int) * 1000 +
    (entryRequiredKeysCount tpl : Int) * 10 +
    (if entryHasTypeField tpl then 100 else 0)

/-- A registry entry is considered by Auto selection only when it
matches the record and hits at least one field. -/
def autoEligible (record : JsonValue) (e : TemplateEntry) : Bool :=
  templateMatchesRecord e.template record &&
    0 < countTemplateFieldHits e.template record

/-- The `best`/`bestScore` accumulator loop of
`getBestTemplateForRecord`. -/
def bestLoop (record : JsonValue) :
    List TemplateEntry → Option TemplateEntry → Int → Option TemplateEntry
  | [], best, _ => best
  | e :: rest, best, bestScore =>
      if autoEligible record e then
        let score := autoScore e.template record
        if score > bestScore then bestLoop record rest (some e) score
        else bestLoop record rest best bestScore
      else bestLoop record rest best bestScore

/-- `getBestTemplateForRecord` (src/app.js:3777): the
highest-`autoScore` eligible entry, first registered winning ties
(`score > bestScore` is strict). -/
def getBestTemplateForRecord (templates : List TemplateEntry)
    (record : JsonValue) : Option TemplateEntry :=
  if ¬ jsIsObjectLike record then none
  else if templates.isEmpty then none
  else bestLoop record templates none (-1)

/-- `getExplicitActiveTemplate` (src/app.js:3756). -/
def getExplicitActiveTemplate (st : SessionState) : Option TemplateEntry :=
  if st.activeTemplateId = "" then none
  else if st.activeTemplateId = TEMPLATE_AUTO_ID then none
  else st.templates.find? (fun e => e.id = st.activeTemplateId)

/-- `getTemplateForRecord` (src/app.js:3825): None yields null, Auto
delegates to the best-match search, an explicit selection yields its
entry only when the template matches the record. -/
def getTemplateForRecord (st : SessionState) (record : JsonValue) :
    Option TemplateEntry :=
  if st.activeTemplateId = "" then none
  else if st.activeTemplateId = TEMPLATE_AUTO_ID then
    getBestTemplateForRecord st.templates record
  else
    match getExplicitActiveTemplate st with
    | none => none
    | some e =>
        if templateMatchesRecord e.template record then some e else none

/-- Specification-side Auto selection, written from the spec's words:
consider only matching templates with at least one field hit, score
each with `autoScore`, return the highest-scoring one, and break ties
by registry order (first registered wins).  Compared against
`getBestTemplateForRecord` in the selection theorem. -/
def autoSelectSpec (record : JsonValue) :
    List TemplateEntry → Option TemplateEntry
  | [] => none
  | e :: rest =>
      if autoEligible record e then
        match autoSelectSpec record rest with
        | some e2 =>
            if autoScore e2.template record > autoScore e.template record
              then some e2 else some e
        | none => some e
      else autoSelectSpec record rest

/- ------------------------------------------------------------------
   Template-driven view rendering (src/app.js:1737
   `renderTemplateField`, src/app.js:1879 `renderTemplateRecordView`)

   The HTML strings the source produces are abstracted to a structural
   view tree, as the spec's view-node contract prescribes: each
   constructor carries exactly the data the source interpolates into
   its markup, and "renders nothing" (the source's `''` returns, which
   `filter(Boolean)` drops from a card body) is `none`.  The source can
   throw a TypeError when a `layout` entry or a `fields` entry is the
   literal `null` (`sec.section` / `field.path` on `null`); that
   failure mode is made explicit with `Except`.
   ------------------------------------------------------------------ -/

/-- One rendered template field, by declared format. -/
inductive FieldRender where
  | badge (label text : String)
  | date (label : String) (value : JsonValue)
  | link (label url : String)
  | multiline (label text : String)
  | kvlist (label : String) (rows : List (String × String))
      (pathHint : String)
  | jsonField (label : String) (value : JsonValue) (collapsible : Bool)
  | text (label : String) (value : JsonValue)

/-- One collapsible section card (title, open-by-default flag, rendered
field rows). -/
structure Card where
  title : String
  openByDefault : Bool
  body : List FieldRender

/-- The outcome of `renderTemplateRecordView`: the generic fallback
view, the "no fields found" diagnostic card (carrying the displayed
template name and the record shown collapsed beneath it), or the
section layout. -/
inductive RenderResult where
  | generic (record : JsonValue)
  | noFieldsCard (templateName : String) (record : JsonValue)
  | sectionCards (cards : List Card)

/-- `renderValue(value, opts)` (src/app.js:2758) produces the empty
string exactly when the value is the empty string (all other values
render a badge, markup, or non-empty escaped text); this predicate
captures that emptiness test where `renderTemplateField` feeds a value
straight to `renderKV`. -/
def renderedValueEmpty : JsonValue → Bool
  | .str s => s = ""
  | _ => false

/-- `renderTemplateField` (src/app.js:1737).  `Except.error` models the
TypeError thrown on a `null` field entry; `Except.ok none` models the
source's `''` returns (field silently renders nothing). -/
def renderTemplateField (record f : JsonValue) :
    Except String (Option FieldRender) :=
  match f with
  | .null => .error "TypeError: field entry is null"
  | _ =>
      let path := fieldStringProp f "path"
      let label := fieldStringProp f "label"
      let format := fieldFormat f
      if path = "" ∨ label = "" then .ok none
      else
        match getValueAtPath record path with
        | none => .ok none
        | some value =>
            if format = "badge" then
              let badgeText :=
                if isNull value then "null"
                else safeOneLine (jsToString value) 60
              if badgeText = "" then .ok none
              else .ok (some (.badge label badgeText))
            else if format = "date" then
              -- formatDateTime(value) is falsy exactly when the value is
              -- falsy or a non-string whose JS string form is empty
              -- (an unparsable non-empty string passes through, a parsed
              -- date formats to non-empty locale text).
              let dtEmpty :=
                if ¬ jsTruthy value then true
                else match value with
                  | .str _ => false
                  | v => jsToString v = ""
              if dtEmpty then .ok none
              else .ok (some (.date label value))
            else if format = "link" then
              match value with
              | .str s => if s = "" then .ok none
                          else .ok (some (.link label s))
              | _ => .ok none
            else if format = "multiline" then
              match value with
              | .str s => if s = "" then .ok none
                          else .ok (some (.multiline label s))
              | _ => .ok none
            else if format = "kvlist" then
              let rows := renderKvListValue value f
              if rows.isEmpty then .ok none
              else .ok (some (.kvlist label rows ("$.$TEMPLATE." ++ path)))
            else if format = "json" then
              let isHeavy := jsIsObjectLike value
              if renderedValueEmpty value then .ok none
              else .ok (some (.jsonField label value isHeavy))
            else
              if renderedValueEmpty value then .ok none
              else .ok (some (.text label value))

/-- The displayed template name of the diagnostic card:
`typeof templateName === 'string' && templateName.trim() ?
templateName.trim() : 'Selected template'`. -/
def templateDisplayName (template : JsonValue) : String :=
  match jsGetMember template "templateName" with
  | some (.str s) => if jsTrim s ≠ "" then jsTrim s else "Selected template"
  | _ => "Selected template"

/-- One section card of the template layout:
`String(sec.section || '').trim() || 'Section ' + (i+1)` as title, the
first section open by default, the fields rendered in order with empty
renders dropped. -/
def renderSectionCard (record : JsonValue) (i : Nat) (sec : JsonValue) :
    Except String Card :=
  match sec with
  | .null => .error "TypeError: layout section is null"
  | _ => do
      let titleRaw := fieldStringProp sec "section"
      let title := if titleRaw = "" then "Section " ++ jsNatRepr (i + 1)
                   else titleRaw
      let fields := match jsGetMember sec "fields" with
        | some (.arr fs) => fs
        | _ => []
      let rendered ← fields.mapM (renderTemplateField record)
      .ok ⟨title, i = 0, rendered.filterMap id⟩

/-- `renderTemplateRecordView` (src/app.js:1879): non-object templates
and templates without an array `layout` fall back to the generic pretty
view; a zero hit count yields the "no fields from this template were
found" diagnostic card (template name plus the full record, collapsed);
otherwise the section cards render in declared order. -/
def renderTemplateRecordView (template record : JsonValue) :
    Except String RenderResult :=
  if ¬ jsIsObjectLike template then .ok (.generic record)
  else
    match jsGetMember template "layout" with
    | some (.arr secs) =>
        if countTemplateFieldHits template record = 0 then
          .ok (.noFieldsCard (templateDisplayName template) record)
        else do
          let cards ← (secs.enum.mapM fun p =>
            renderSectionCard record p.1 p.2)
          .ok (.sectionCards cards)
    | _ => .ok (.generic record)

/- ==================================================================
   Theorems
   ================================================================== -/

/-- C5: path resolution is total — for every JSON value as root and
every string as path, including syntactically malformed paths that
bypassed validation, `getValueAtPath` is a total function yielding
either a concrete value or `undefined` (`none`); the conjuncts exercise
malformed paths (`"]][["` resolves to the root itself, a garbled
bracket group degrades to name segments, and a dangling bracket run
yields a clean miss), never a crash. -/
theorem spec_c5_resolution_total :
    (∀ (obj : JsonValue) (path : String),
      getValueAtPath obj path = none ∨
        ∃ v, getValueAtPath obj path = some v)
    ∧ getValueAtPath (.obj [("a", .obj [("b", .num 7)])]) "]][[" =
        some (.obj [("a", .obj [("b", .num 7)])])
    ∧ getValueAtPath (.obj [("a", .obj [("b", .num 7)])]) "a]].[[b" =
        some (.num 7)
    ∧ getValueAtPath (.obj [("a", .obj [("b", .num 7)])]) "a[x].b" =
        none := by
  refine ⟨fun obj path => ?_, rfl, rfl, rfl⟩
  cases getValueAtPath obj path with
  | none => exact Or.inl rfl
  | some v => exact Or.inr ⟨v, rfl⟩

/-- C6 counterexample: the claim asserts that a name segment applied to
any non-mapping — arrays included — yields undefined, but the source's
`cur = cur[t]` follows JS array property semantics, so the un-bracketed
numeric segment in `"Items.0"` (tokenized as a NAME token) resolves the
array element: the result is `42`, not undefined. -/
theorem spec_c6_name_segment_on_array_defined :
    tokenizePath "Items.0" = [.name "Items", .name "0"]
    ∧ getValueAtPath (.obj [("Items", .arr [.num 42])]) "Items.0" =
        some (.num 42) := ⟨rfl, rfl⟩

/-- C6 (amended): traversal is segment by segment
(`getValueAtPath = walkPath` over the token list); a null current value
yields undefined immediately; a numeric index segment on a non-array
yields undefined; a name segment on a primitive yields undefined (the
`typeof cur !== 'object'` guard fires before any property access); a
name segment on an ARRAY is a JS property read, of which the
JSON-valued reads are covered: a canonical numeric index string
resolves like the corresponding element access (refuting the claim's
"yields undefined", as the counterexample shows) and `"length"`
resolves the array length — names of inherited `Array.prototype`
members resolve to built-in function values in the program, non-JSON
values outside this model about which this theorem asserts nothing;
and the three concrete examples of the claim hold. -/
theorem spec_c6_traversal (obj : JsonValue) (path : String)
    (hp : path ≠ "") (hn : isNull obj = false) :
    getValueAtPath obj path = walkPath obj (tokenizePath path)
    ∧ (∀ (t : PathToken) (ts : List PathToken),
        walkPath .null (t :: ts) = none)
    ∧ (∀ (n : Nat) (ts : List PathToken) (cur : JsonValue),
        (∀ xs, cur ≠ .arr xs) → walkPath cur (.index n :: ts) = none)
    ∧ (∀ (s : String) (ts : List PathToken),
        (∀ b, walkPath (.bool b) (.name s :: ts) = none)
        ∧ (∀ m, walkPath (.num m) (.name s :: ts) = none)
        ∧ (∀ t, walkPath (.str t) (.name s :: ts) = none))
    ∧ (∀ (s : String) (n : Nat) (ts : List PathToken)
        (xs : List JsonValue), canonicalIndexOf s = some n →
        walkPath (.arr xs) (.name s :: ts) =
          match xs.get? n with
          | some v => walkPath v ts
          | none => none)
    ∧ (∀ (ts : List PathToken) (xs : List JsonValue),
        walkPath (.arr xs) (.name "length" :: ts) =
          walkPath (.num xs.length) ts)
    ∧ getValueAtPath (.obj [("Items", .arr [.obj [("Title",
        .str "Window detail")]])]) "Items[0].Title" =
        some (.str "Window detail")
    ∧ getValueAtPath (.obj [("Items", .arr [])]) "Items[0].Title" = none
    ∧ getValueAtPath (.obj [("Items", .str "not-an-array")])
        "Items[0].Title" = none := by
  refine ⟨?_, ?_, ?_, ?_, ?_, ?_, rfl, rfl, rfl⟩
  · unfold getValueAtPath
    rw [if_neg hp, if_neg (by simp [hn])]
  · intro t ts
    simp [walkPath, isNull]
  · intro n ts cur hcur
    cases cur with
    | arr xs => exact absurd rfl (hcur xs)
    | null => simp [walkPath, isNull]
    | bool b => simp [walkPath, isNull]
    | num m => simp [walkPath, isNull]
    | str s => simp [walkPath, isNull]
    | obj kvs => simp [walkPath, isNull]
  · intro s ts
    refine ⟨fun b => ?_, fun m => ?_, fun t => ?_⟩ <;>
      simp [walkPath, isNull]
  · intro s n ts xs hc
    have hs : s ≠ "length" := by
      intro he
      rw [he] at hc
      cases hc
    simp only [walkPath, isNull]
    unfold jsArrStringIndex
    rw [if_neg hs, hc]
    by_cases hlt : n < xs.length
    · simp [hlt]
    · simp only [if_neg hlt]
      rw [List.get?_eq_none.mpr (Nat.le_of_not_lt hlt)]
      simp
  · intro ts xs
    rfl

/-- C6 witness: the segment-by-segment decomposition applied at a
concrete root and path. -/
theorem spec_c6_traversal_witness :
    getValueAtPath (.obj [("Items", .arr [.num 42])]) "Items[0]" =
      walkPath (.obj [("Items", .arr [.num 42])])
        (tokenizePath "Items[0]") :=
  (spec_c6_traversal (.obj [("Items", .arr [.num 42])]) "Items[0]"
    (by decide) rfl).1

/-- C7 counterexample: the claim says an array input keeps exactly the
MAPPING-typed elements, but the source filter is
`x && typeof x === 'object'`, which also keeps array elements: an input
holding one (empty-array) element yields that element as a record
instead of the empty record list the claim requires. -/
theorem spec_c7_array_elements_kept :
    (extractRecords (.arr [.arr []])).records = [.arr []] := rfl

/-- C7 (amended): record extraction keeps the object-typed elements
(mappings AND arrays — `x && typeof x === 'object'`; null and
primitives are dropped) in order with source path `$`; a mapping input
scans the fixed ordered case-variant container-key list and the first
key holding an array wins with source path `$.<key>`, an obj-filtered
copy of that array as records; a mapping without such a key is itself
the sole record; primitives and null yield zero records and a null
source path; and the claim's three concrete examples hold. -/
theorem spec_c7_extract_records :
    (∀ xs, extractRecords (.arr xs) =
      ⟨xs.filter jsIsObjectLike, some "$"⟩)
    ∧ (∀ kvs, extractRecords (.obj kvs) =
        match findFirstArrayContainer kvs candidateContainerKeys with
        | some (k, ys) => ⟨ys.filter jsIsObjectLike, some ("$." ++ k)⟩
        | none => ⟨[.obj kvs], some "$"⟩)
    ∧ extractRecords .null = ⟨[], none⟩
    ∧ (∀ b, extractRecords (.bool b) = ⟨[], none⟩)
    ∧ (∀ n, extractRecords (.num n) = ⟨[], none⟩)
    ∧ (∀ s, extractRecords (.str s) = ⟨[], none⟩)
    ∧ extractRecords (.obj [("issues", .arr [.obj [("Title", .str "A")],
        .obj [("Title", .str "B")]])]) =
        ⟨[.obj [("Title", .str "A")], .obj [("Title", .str "B")]],
          some "$.issues"⟩
    ∧ extractRecords (.arr [.num 1, .num 2, .obj [("a", .num 1)]]) =
        ⟨[.obj [("a", .num 1)]], some "$"⟩
    ∧ extractRecords (.str "hello") = ⟨[], none⟩ :=
  ⟨fun _ => rfl, fun _ => rfl, rfl, fun _ => rfl, fun _ => rfl,
    fun _ => rfl, rfl, rfl, rfl⟩

/-- C3: the `showEmpty` option is dead code.  `renderKvListValue` is
declared four times in the source; under JS function hoisting the last
declaration (line 2690), which drops valueless rows unconditionally,
shadows the `showEmpty`-aware one (line 2590).  On an item whose label
resolves but whose value paths all miss, with `showEmpty` set, the
effective renderer emits no row (and hence an empty list, which also
makes a `kvlist` field count zero hits), while the shadowed definition
— the behavior the claim and the source's own comments describe —
renders the row with the default `"(empty)"` text. -/
theorem spec_c3_show_empty_shadowed :
    renderKvListValue (.arr [.obj [("Name", .str "A")]])
        (.obj [("showEmpty", .bool true)]) = []
    ∧ renderKvListValueShowEmpty (.arr [.obj [("Name", .str "A")]])
        (.obj [("showEmpty", .bool true)]) = [("A", "(empty)")] :=
  ⟨rfl, rfl⟩

/-- The template used in the empty-match-block analysis: a structurally
valid template whose `match` block is the empty object. -/
def tplEmptyMatch : JsonValue :=
  .obj [("templateVersion", .num 1),
        ("templateName", .str "Empty match"),
        ("layout", .arr []),
        ("match", .obj [])]

/-- C4 counterexample: a structurally valid template with an empty
`match` block does NOT match every record — `templateMatchesRecord`
rejects any record that is not a non-null object before the match block
is even consulted, so a number record yields `false` where the claim
requires `true`. -/
theorem spec_c4_primitive_record_fails :
    validateTemplate tplEmptyMatch = .ok
    ∧ jsGetMember tplEmptyMatch "match" = some (.obj [])
    ∧ templateMatchesRecord tplEmptyMatch (.num 42) = false :=
  ⟨rfl, rfl, rfl⟩

/-- "`requiredKeys` declares no effective entry": every entry is a
non-string or a blank string (all of which the source's loop skips). -/
def rkVacuous (m : JsonValue) : Bool :=
  match jsGetMember m "requiredKeys" with
  | some (.arr ks) =>
      ks.all (fun k => match k with
        | .str s => jsTrim s = ""
        | _ => true)
  | _ => true

/-- "no typeField/typeValue constraint is declared": `typeField` is not
a non-blank string, or `typeValue` is absent or null. -/
def tfVacuous (m : JsonValue) : Bool :=
  match jsGetMember m "typeField" with
  | some (.str tf) =>
      (jsTrim tf = "") ||
        (match jsGetMember m "typeValue" with
         | none => true
         | some .null => true
         | some _ => false)
  | _ => true

/-- A `match` block that imposes no constraint: absent, non-object, or
an object whose `requiredKeys` declares no effective entry and whose
`typeField`/`typeValue` pair is not fully declared.  The empty `match`
block of the claim is the special case `{}`. -/
def matchBlockVacuous (tpl : JsonValue) : Bool :=
  match jsGetMember tpl "match" with
  | none => true
  | some m =>
      if ¬ jsIsObjectLike m then true
      else rkVacuous m && tfVacuous m

/-- A vacuous `requiredKeys` declaration passes the gate on every
record. -/
theorem requiredKeysCheck_of_vacuous (record : JsonValue)
    (mkvs : List (String × JsonValue))
    (h : rkVacuous (.obj mkvs) = true) :
    requiredKeysCheck record (.obj mkvs) = true := by
  unfold rkVacuous at h
  unfold requiredKeysCheck
  simp only [jsGetMember] at h ⊢
  cases hks : List.lookup "requiredKeys" mkvs with
  | none => rfl
  | some v =>
      rw [hks] at h
      cases v with
      | arr ks =>
          have hall : ks.all (fun k => match k with
              | .str s => jsTrim s = ""
              | _ => true) = true := h
          show (if ks.isEmpty then true else requiredKeysOk record ks) = true
          cases hke : ks.isEmpty with
          | true => simp [hke]
          | false =>
              rw [if_neg (by simp [hke])]
              unfold requiredKeysOk
              rw [List.all_eq_true] at hall ⊢
              intro k hk
              have hkk := hall k hk
              cases k <;> simp_all
      | null => rfl
      | bool b => rfl
      | num n => rfl
      | str s => rfl
      | obj o => rfl

/-- The non-blank `typeField` case of a vacuous declaration: the
constraint is skipped because `typeValue` is absent or null. -/
theorem tfStr_vacuous (record : JsonValue)
    (mkvs : List (String × JsonValue)) (tf : String)
    (h : ((jsTrim tf = "" : Bool) ||
          (match List.lookup "typeValue" mkvs with
           | none => true
           | some .null => true
           | some _ => false)) = true) :
    (if jsTrim tf = "" then true
     else
       match List.lookup "typeValue" mkvs with
       | none => true
       | some .null => true
       | some tv =>
           match jsGetMember record (jsTrim tf) with
           | none => false
           | some .null => false
           | some actual =>
               jsTrim (jsToString actual) = jsTrim (jsToString tv)) =
      true := by
  by_cases h0 : jsTrim tf = ""
  · rw [if_pos h0]
  · rw [if_neg h0]
    rw [Bool.or_eq_true] at h
    rcases h with h | h
    · exact absurd (by simpa using h) h0
    · cases htv : List.lookup "typeValue" mkvs with
      | none => rfl
      | some tv =>
          rw [htv] at h
          cases tv with
          | null => rfl
          | bool b => simp at h
          | num n => simp at h
          | str s => simp at h
          | arr a => simp at h
          | obj o => simp at h

/-- A vacuous `typeField`/`typeValue` declaration passes the gate on
every record. -/
theorem typeFieldOk_of_vacuous (record : JsonValue)
    (mkvs : List (String × JsonValue))
    (h : tfVacuous (.obj mkvs) = true) :
    typeFieldOk record (.obj mkvs) = true := by
  unfold tfVacuous at h
  unfold typeFieldOk
  simp only [jsGetMember] at h ⊢
  cases htfv : List.lookup "typeField" mkvs with
  | none => rfl
  | some v =>
      rw [htfv] at h
      cases v with
      | str tf => exact tfStr_vacuous record mkvs tf h
      | null => rfl
      | bool b => rfl
      | num n => rfl
      | arr a => rfl
      | obj o => rfl

/-- A vacuous declared `match` block accepts every record that reaches
it. -/
theorem matchBlockOk_of_vacuous (record m : JsonValue)
    (h : (if ¬ jsIsObjectLike m then true
          else rkVacuous m && tfVacuous m) = true) :
    matchBlockOk record m = true := by
  unfold matchBlockOk
  cases m with
  | null => rfl
  | bool b => rfl
  | num n => rfl
  | str s => rfl
  | arr mxs => rfl
  | obj mkvs =>
      rw [if_neg (by simp [jsIsObjectLike])] at h ⊢
      rw [Bool.and_eq_true] at h
      rw [Bool.and_eq_true]
      exact ⟨requiredKeysCheck_of_vacuous record mkvs h.1,
        typeFieldOk_of_vacuous record mkvs h.2⟩

/-- The vacuous `match` block accepts every non-null object record. -/
theorem matches_true_of_vacuous (tkvs : List (String × JsonValue))
    (hvac : matchBlockVacuous (.obj tkvs) = true) (record : JsonValue)
    (hrec : jsIsObjectLike record = true) :
    templateMatchesRecord (.obj tkvs) record = true := by
  unfold templateMatchesRecord
  rw [if_neg (by simp [jsIsObjectLike]), if_neg (by simp [hrec])]
  unfold matchBlockVacuous at hvac
  simp only [jsGetMember] at hvac ⊢
  cases hm : List.lookup "match" tkvs with
  | none => rfl
  | some m =>
      rw [hm] at hvac
      have hv : (if ¬ jsIsObjectLike m then true
          else rkVacuous m && tfVacuous m) = true := hvac
      exact matchBlockOk_of_vacuous record m hv

/-- C4 (amended): for a template (an object) whose `match` block
declares no requiredKeys entries and no typeField/typeValue constraint,
`templateMatchesRecord` returns true exactly for the records that are
non-null objects (mappings or arrays) — primitive and null records are
rejected by the up-front record guard. -/
theorem spec_c4_empty_match_applies_broadly
    (tkvs : List (String × JsonValue))
    (hvac : matchBlockVacuous (.obj tkvs) = true) (record : JsonValue) :
    templateMatchesRecord (.obj tkvs) record = jsIsObjectLike record := by
  cases record with
  | arr rxs => exact matches_true_of_vacuous tkvs hvac _ rfl
  | obj rkvs => exact matches_true_of_vacuous tkvs hvac _ rfl
  | null => rfl
  | bool b => rfl
  | num n => rfl
  | str s => rfl

/-- C4 witness: the amended statement applied to the concrete
empty-match template and a mapping record. -/
theorem spec_c4_empty_match_witness :
    templateMatchesRecord tplEmptyMatch (.obj [("x", .num 1)]) =
      jsIsObjectLike (.obj [("x", .num 1)]) :=
  spec_c4_empty_match_applies_broadly
    [("templateVersion", .num 1), ("templateName", .str "Empty match"),
     ("layout", .arr []), ("match", .obj [])] (by decide)
    (.obj [("x", .num 1)])

/-- A non-empty list all of whose elements equal `t` dedups to `[t]`. -/
theorem dedup_eq_singleton_of_all {α : Type} [DecidableEq α]
    (t : α) : ∀ (l : List α), l ≠ [] → (∀ x ∈ l, x = t) →
    l.dedup = [t] := by
  intro l
  induction l with
  | nil => intro h; exact absurd rfl h
  | cons a l ih =>
      intro _ hall
      have ha : a = t := hall a (List.mem_cons_self a l)
      cases l with
      | nil => simp [ha]
      | cons b l' =>
          have hmem : a ∈ b :: l' := by
            have hb : b = t := hall b (by simp)
            rw [ha, ← hb]; exact List.mem_cons_self b l'
          rw [List.dedup_cons_of_mem hmem]
          exact ih (by simp) (fun x hx => hall x (List.mem_cons_of_mem a hx))

/-- C9: document-level classification extracts the records, classifies
each one, and returns the shared type exactly when every record agrees;
the zero-record case and any disagreement yield Generic. -/
theorem spec_c9_document_classification (json : JsonValue) :
    ((extractRecords json).records = [] →
      detectRecordType json = .Generic)
    ∧ (∀ t : RecordType, (extractRecords json).records ≠ [] →
        (∀ r ∈ (extractRecords json).records,
          detectRecordTypeFromObject r = t) →
        detectRecordType json = t)
    ∧ (∀ r1 r2, r1 ∈ (extractRecords json).records →
        r2 ∈ (extractRecords json).records →
        detectRecordTypeFromObject r1 ≠ detectRecordTypeFromObject r2 →
        detectRecordType json = .Generic) := by
  refine ⟨?_, ?_, ?_⟩
  · intro h
    unfold detectRecordType
    rw [h]
    rfl
  · intro t hne hall
    unfold detectRecordType
    have hd : ((extractRecords json).records.map
        detectRecordTypeFromObject).dedup = [t] := by
      apply dedup_eq_singleton_of_all
      · simpa using hne
      · intro x hx
        rw [List.mem_map] at hx
        obtain ⟨r, hr, hrx⟩ := hx
        rw [← hrx]
        exact hall r hr
    rw [if_neg (by simp [List.isEmpty_iff, hne]), hd]
  · intro r1 r2 h1 h2 hne
    unfold detectRecordType
    have hne2 : (extractRecords json).records ≠ [] := by
      intro h; rw [h] at h1; cases h1
    rw [if_neg (by simp [List.isEmpty_iff, hne2])]
    cases hd : ((extractRecords json).records.map
        detectRecordTypeFromObject).dedup with
    | nil => rfl
    | cons t ts =>
        cases ts with
        | nil =>
            exfalso
            have m1 : detectRecordTypeFromObject r1 ∈
                ((extractRecords json).records.map
                  detectRecordTypeFromObject).dedup := by
              rw [List.mem_dedup]
              exact List.mem_map_of_mem detectRecordTypeFromObject h1
            have m2 : detectRecordTypeFromObject r2 ∈
                ((extractRecords json).records.map
                  detectRecordTypeFromObject).dedup := by
              rw [List.mem_dedup]
              exact List.mem_map_of_mem detectRecordTypeFromObject h2
            rw [hd] at m1 m2
            simp at m1 m2
            exact hne (m1.trans m2.symm)
        | cons t2 ts2 => rfl

/-- C9 witness: a two-record document whose records agree classifies to
the shared type (both records carry the explicit hint `type: "issue"`). -/
theorem spec_c9_witness :
    detectRecordType (.arr [.obj [("type", .str "issue")],
      .obj [("type", .str "issue"), ("x", .num 1)]]) = .Issue :=
  (spec_c9_document_classification (.arr [.obj [("type", .str "issue")],
      .obj [("type", .str "issue"), ("x", .num 1)]])).2.1 .Issue
    (List.cons_ne_nil _ _)
    (by
      intro r hr
      have hr2 : r ∈ [JsonValue.obj [("type", .str "issue")],
          JsonValue.obj [("type", .str "issue"), ("x", .num 1)]] := hr
      rw [List.mem_cons, List.mem_cons] at hr2
      rcases hr2 with h | h | h
      · rw [h]; rfl
      · rw [h]; rfl
      · cases h)

/-- Cross-multiplication form of `0.25 ≤ a/b` over ℚ for natural
counts. -/
theorem quarter_le_div_iff (a b : Nat) (hb : 0 < b) :
    ((1/4 : ℚ) ≤ (a : ℚ) / (b : ℚ)) ↔ b ≤ 4 * a := by
  rw [div_le_div_iff₀ (by norm_num) (by exact_mod_cast hb)]
  rw [one_mul, mul_comm]
  exact_mod_cast Iff.rfl

/-- Cross-multiplication form of `a/b ≤ 0.25` over ℚ for natural
counts. -/
theorem div_le_quarter_iff (a b : Nat) (hb : 0 < b) :
    ((a : ℚ) / (b : ℚ) ≤ 1/4) ↔ 4 * a ≤ b := by
  rw [div_le_div_iff₀ (by exact_mod_cast hb) (by norm_num)]
  rw [one_mul, mul_comm]
  exact_mod_cast Iff.rfl

/-- A sample with at least one observed key has at least one field. -/
theorem datasetTotalVals_pos (sample : List JsonValue)
    (h : (datasetAllKeys sample).length ≠ 0) :
    0 < datasetTotalVals sample := by
  rcases Nat.eq_zero_or_pos (datasetTotalVals sample) with h0 | h0
  · exfalso
    apply h
    unfold datasetTotalVals at h0
    rw [List.sum_eq_zero_iff] at h0
    unfold datasetAllKeys
    have hflat : (sample.map objKeys).flatten = [] := by
      rw [List.flatten_eq_nil_iff]
      intro l hl
      rw [List.mem_map] at hl
      obtain ⟨o, ho, rfl⟩ := hl
      have := h0 ((objKeys o).length)
        (List.mem_map_of_mem (fun o => (objKeys o).length) ho)
      exact List.length_eq_zero.mp this
    rw [hflat]
    rfl
  · exact h0

/-- The concrete 100-row flat array of the claim. -/
def dataset100 : JsonValue :=
  .arr (List.replicate 100 (.obj [("a", .num 1), ("b", .num 2)]))

/-- The same rows truncated to 50 (below the length floor). -/
def dataset50 : JsonValue :=
  .arr (List.replicate 50 (.obj [("a", .num 1), ("b", .num 2)]))

/-- C8: an array is classified as a dataset iff its length is at least
80, the sample of up to 25 mapping elements has at least 10 elements,
the common-key ratio is at least 1/4 and the nested-field ratio is at
most 1/4 (both stated over ℚ; non-arrays are never datasets, and a key
is "common" exactly when present in at least 60% of sampled items);
concretely, the 100-row flat array is a dataset while its 50-row
truncation is not. -/
theorem spec_c8_dataset_detection :
    (∀ (keySets : List (List String)) (k : String), keySets ≠ [] →
      (keyIsCommon keySets k = true ↔
        (3/5 : ℚ) ≤ ((keySets.filter (fun s => k ∈ s)).length : ℚ) /
          (keySets.length : ℚ)))
    ∧ (∀ json : JsonValue, isLargeFlatArrayDataset json = true ↔
        ∃ xs, json = .arr xs ∧ 80 ≤ xs.length ∧
          10 ≤ (datasetSample xs).length ∧
          (1/4 : ℚ) ≤ datasetCommonRatio (datasetSample xs) ∧
          datasetNestedRatio (datasetSample xs) ≤ 1/4)
    ∧ isLargeFlatArrayDataset dataset100 = true
    ∧ isLargeFlatArrayDataset dataset50 = false := by
  have hkey : ∀ (keySets : List (List String)) (k : String),
      keySets ≠ [] →
      (keyIsCommon keySets k = true ↔
        (3/5 : ℚ) ≤ ((keySets.filter (fun s => k ∈ s)).length : ℚ) /
          (keySets.length : ℚ)) := by
    intro keySets k hne
    unfold keyIsCommon
    rw [decide_eq_true_iff]
    rw [div_le_div_iff₀ (by norm_num)
      (by exact_mod_cast List.length_pos.mpr hne)]
    constructor
    · intro h
      have : (3 : ℚ) * keySets.length ≤
          5 * (keySets.filter (fun s => k ∈ s)).length := by
        exact_mod_cast h
      linarith
    · intro h
      have : (3 : ℚ) * keySets.length ≤
          5 * (keySets.filter (fun s => k ∈ s)).length := by
        linarith
      exact_mod_cast this
  refine ⟨hkey, ?_, by decide, by decide⟩
  intro json
  cases json with
  | arr xs =>
      constructor
      · intro h
        refine ⟨xs, rfl, ?_⟩
        replace h : datasetCheckArr xs = true := h
        unfold datasetCheckArr at h
        by_cases h80 : xs.length < 80
        · rw [if_pos h80] at h; cases h
        · rw [if_neg h80] at h
          by_cases h10 : (datasetSample xs).length < 10
          · rw [if_pos h10] at h; cases h
          · rw [if_neg h10] at h
            by_cases hak : (datasetAllKeys (datasetSample xs)).length = 0
            · rw [if_pos hak] at h; cases h
            · rw [if_neg hak] at h
              rw [Bool.and_eq_true, decide_eq_true_iff,
                decide_eq_true_iff] at h
              obtain ⟨hcc, hnv⟩ := h
              have hakpos : 0 < (datasetAllKeys (datasetSample xs)).length :=
                Nat.pos_of_ne_zero hak
              have htv : 0 < datasetTotalVals (datasetSample xs) :=
                datasetTotalVals_pos _ hak
              refine ⟨by omega, by omega, ?_, ?_⟩
              · unfold datasetCommonRatio
                exact (quarter_le_div_iff _ _ hakpos).mpr (by omega)
              · unfold datasetNestedRatio
                rw [if_pos (Nat.pos_iff_ne_zero.mp htv)]
                exact (div_le_quarter_iff _ _ htv).mpr (by omega)
      · rintro ⟨ys, hys, h80, h10, hcr, hnr⟩
        cases hys
        show datasetCheckArr xs = true
        unfold datasetCheckArr
        rw [if_neg (by omega), if_neg (by omega)]
        by_cases hak : (datasetAllKeys (datasetSample xs)).length = 0
        · exfalso
          unfold datasetCommonRatio at hcr
          rw [List.length_eq_zero] at hak
          unfold datasetCommonCount at hcr
          rw [hak] at hcr
          simp at hcr
          linarith
        · rw [if_neg hak]
          have hakpos : 0 < (datasetAllKeys (datasetSample xs)).length :=
            Nat.pos_of_ne_zero hak
          have htv : 0 < datasetTotalVals (datasetSample xs) :=
            datasetTotalVals_pos _ hak
          rw [Bool.and_eq_true, decide_eq_true_iff, decide_eq_true_iff]
          constructor
          · unfold datasetCommonRatio at hcr
            have := (quarter_le_div_iff _ _ hakpos).mp hcr
            omega
          · unfold datasetNestedRatio at hnr
            rw [if_pos (Nat.pos_iff_ne_zero.mp htv)] at hnr
            have := (div_le_quarter_iff _ _ htv).mp hnr
            omega
  | null => simp [isLargeFlatArrayDataset]
  | bool b => simp [isLargeFlatArrayDataset]
  | num n => simp [isLargeFlatArrayDataset]
  | str s => simp [isLargeFlatArrayDataset]
  | obj kvs => simp [isLargeFlatArrayDataset]

/-- A structurally valid template is an object carrying an array
`layout`. -/
theorem validate_ok_shape (t : JsonValue) (h : validateTemplate t = .ok) :
    ∃ kvs secs, t = .obj kvs ∧
      List.lookup "layout" kvs = some (.arr secs) := by
  cases t with
  | obj kvs =>
      refine ⟨kvs, ?_⟩
      simp only [validateTemplate] at h
      split at h <;> try cases h
      split at h <;> try cases h
      split at h <;> try cases h
      split at h <;> try cases h
      rename_i ys heq
      exact ⟨ys, rfl, heq⟩
  | null => simp [validateTemplate] at h
  | bool b => simp [validateTemplate] at h
  | num n => simp [validateTemplate] at h
  | str s => simp [validateTemplate] at h
  | arr a => simp [validateTemplate] at h

/-- Shared helper: a valid template with zero field hits renders the
diagnostic card. -/
theorem render_noFieldsCard_of_zero_hits (t r : JsonValue)
    (hok : validateTemplate t = .ok)
    (hz : countTemplateFieldHits t r = 0) :
    renderTemplateRecordView t r =
      .ok (.noFieldsCard (templateDisplayName t) r) := by
  obtain ⟨kvs, secs, rfl, hl⟩ := validate_ok_shape t hok
  unfold renderTemplateRecordView
  rw [if_neg (by simp [jsIsObjectLike])]
  simp only [jsGetMember]
  rw [hl]
  split
  · rename_i s2 heq
    rw [if_pos hz]
  · rename_i hne
    exact absurd rfl (hne secs)

/-- C2: for every structurally valid template and every record, a zero
field-hit count makes the renderer emit the "no fields found"
diagnostic card — carrying the template's display name and the full
record (shown collapsed) — never an empty or seemingly-successful
layout. -/
theorem spec_c2_no_fields_card (t r : JsonValue)
    (hok : validateTemplate t = .ok)
    (hz : countTemplateFieldHits t r = 0) :
    renderTemplateRecordView t r =
      .ok (.noFieldsCard (templateDisplayName t) r) :=
  render_noFieldsCard_of_zero_hits t r hok hz

/-- A concrete valid template whose single field misses the record
below. -/
def tplMisses : JsonValue :=
  .obj [("templateVersion", .num 1),
        ("templateName", .str "Issue card"),
        ("layout", .arr [.obj [("section", .str "Main"),
          ("fields", .arr [.obj [("path", .str "Title"),
            ("label", .str "Title")]])]])]

/-- C2 witness: the diagnostic card on a record containing none of the
template's fields. -/
theorem spec_c2_no_fields_card_witness :
    renderTemplateRecordView tplMisses (.obj [("Other", .num 1)]) =
      .ok (.noFieldsCard "Issue card" (.obj [("Other", .num 1)])) :=
  spec_c2_no_fields_card tplMisses (.obj [("Other", .num 1)])
    (by decide) (by decide)

/-- A section that declares an empty `fields` array. -/
def sectionFieldsEmpty (sec : JsonValue) : Bool :=
  match jsGetMember sec "fields" with
  | some (.arr fs) => fs.isEmpty
  | _ => false

/-- A template whose layout is an array of sections all declaring empty
`fields` arrays (zero declared fields in total). -/
def sectionsAllEmptyFields (t : JsonValue) : Bool :=
  match jsGetMember t "layout" with
  | some (.arr secs) => secs.all sectionFieldsEmpty
  | _ => false

/-- A section with an empty `fields` array contributes no hits. -/
theorem sectionHits_zero_of_empty (r sec : JsonValue)
    (hp : sectionFieldsEmpty sec = true) : sectionHits r sec = 0 := by
  unfold sectionFieldsEmpty at hp
  unfold sectionHits
  by_cases ho : jsIsObjectLike sec = true
  · rw [if_neg (by simp [ho])]
    split at hp
    · rename_i fs heq
      rw [List.isEmpty_iff] at hp
      subst hp
      rfl
    · cases hp
  · rw [if_pos (by simp [Bool.not_eq_true] at ho ⊢; exact ho)]

/-- A template whose sections all declare empty fields arrays hits zero
fields on every record. -/
theorem zero_hits_of_empty_fields (t : JsonValue)
    (hz : sectionsAllEmptyFields t = true) (r : JsonValue) :
    countTemplateFieldHits t r = 0 := by
  unfold sectionsAllEmptyFields at hz
  unfold countTemplateFieldHits
  by_cases ht : jsIsObjectLike t = true
  · rw [if_neg (by simp [ht])]
    by_cases hr : jsIsObjectLike r = true
    · rw [if_neg (by simp [hr])]
      split at hz
      · rename_i secs heq
        have : ∀ x ∈ secs.map (sectionHits r), x = 0 := by
          intro x hx
          rw [List.mem_map] at hx
          obtain ⟨sec, hsec, rfl⟩ := hx
          rw [List.all_eq_true] at hz
          exact sectionHits_zero_of_empty r sec (hz sec hsec)
        exact List.sum_eq_zero this
      · cases hz
    · rw [if_pos (by simp [Bool.not_eq_true] at hr ⊢; exact hr)]
  · rw [if_pos (by simp [Bool.not_eq_true] at ht ⊢; exact ht)]

/-- The accumulator loop only ever returns an entry with a positive hit
count (given the invariant holds of the incoming best). -/
theorem bestLoop_hits_pos (r : JsonValue) :
    ∀ (l : List TemplateEntry) (best : Option TemplateEntry)
      (score : Int) (e : TemplateEntry),
      (∀ b, best = some b → 0 < countTemplateFieldHits b.template r) →
      bestLoop r l best score = some e →
      0 < countTemplateFieldHits e.template r := by
  intro l
  induction l with
  | nil =>
      intro best score e hb hl
      exact hb e hl
  | cons a rest ih =>
      intro best score e hb hl
      unfold bestLoop at hl
      by_cases he : autoEligible r a = true
      · rw [if_pos he] at hl
        have hahits : 0 < countTemplateFieldHits a.template r := by
          unfold autoEligible at he
          rw [Bool.and_eq_true, decide_eq_true_iff] at he
          exact he.2
        by_cases hs : autoScore a.template r > score
        · rw [if_pos hs] at hl
          exact ih (some a) (autoScore a.template r) e
            (fun b hbb => by cases hbb; exact hahits) hl
        · rw [if_neg hs] at hl
          exact ih best score e hb hl
      · rw [if_neg he] at hl
        exact ih best score e hb hl

/-- Auto selection only ever returns templates with at least one hit. -/
theorem getBest_hits_pos (templates : List TemplateEntry)
    (r : JsonValue) (e : TemplateEntry)
    (h : getBestTemplateForRecord templates r = some e) :
    0 < countTemplateFieldHits e.template r := by
  unfold getBestTemplateForRecord at h
  by_cases hr : jsIsObjectLike r = true
  · rw [if_neg (by simp [hr])] at h
    by_cases hemp : templates.isEmpty = true
    · rw [if_pos (by simp [hemp])] at h; cases h
    · rw [if_neg (by simp [Bool.not_eq_true] at hemp ⊢; exact hemp)] at h
      exact bestLoop_hits_pos r templates none (-1) e
        (fun b hb => by cases hb) h
  · rw [if_pos (by simp [Bool.not_eq_true] at hr ⊢; exact hr)] at h
    cases h

/-- The concrete zero-field template of C10: two named sections, both
with empty `fields` arrays. -/
def tplZeroFields : JsonValue :=
  .obj [("templateVersion", .num 1),
        ("templateName", .str "Empty sections"),
        ("layout", .arr [
          .obj [("section", .str "One"), ("fields", .arr [])],
          .obj [("section", .str "Two"), ("fields", .arr [])]])]

/-- C10: a template whose sections all declare empty fields arrays
passes structural validation (concretely witnessed by
`tplZeroFields`), yet hits zero fields on every record, is never the
result of Auto selection, and — applied explicitly to any matching
record — always renders the "no fields found" diagnostic card rather
than any section layout. -/
theorem spec_c10_zero_field_template :
    validateTemplate tplZeroFields = .ok
    ∧ sectionsAllEmptyFields tplZeroFields = true
    ∧ (∀ t : JsonValue, sectionsAllEmptyFields t = true →
        ∀ r, countTemplateFieldHits t r = 0)
    ∧ (∀ (templates : List TemplateEntry) (r : JsonValue)
        (e : TemplateEntry), getBestTemplateForRecord templates r = some e →
        sectionsAllEmptyFields e.template = true → False)
    ∧ (∀ t r, validateTemplate t = .ok →
        sectionsAllEmptyFields t = true →
        templateMatchesRecord t r = true →
        renderTemplateRecordView t r =
          .ok (.noFieldsCard (templateDisplayName t) r)) := by
  refine ⟨by decide, by decide, zero_hits_of_empty_fields, ?_, ?_⟩
  · intro templates r e hbest hempty
    have hpos := getBest_hits_pos templates r e hbest
    have hzero := zero_hits_of_empty_fields e.template hempty r
    omega
  · intro t r hok hempty _
    exact render_noFieldsCard_of_zero_hits t r hok
      (zero_hits_of_empty_fields t hempty r)

/-- C10 witness: the explicit application of the zero-field template to
a matching record renders the diagnostic card. -/
theorem spec_c10_zero_field_witness :
    renderTemplateRecordView tplZeroFields (.obj [("x", .num 1)]) =
      .ok (.noFieldsCard "Empty sections" (.obj [("x", .num 1)])) := by
  exact spec_c10_zero_field_template.2.2.2.2 tplZeroFields
    (.obj [("x", .num 1)]) (by decide) (by decide) (by decide)

/-- Eligible entries score at least 1000 (one hit), in particular above
the loop's initial `bestScore` of `-1`. -/
theorem autoScore_pos (r : JsonValue) (e : TemplateEntry)
    (he : autoEligible r e = true) : 0 < autoScore e.template r := by
  unfold autoEligible at he
  rw [Bool.and_eq_true, decide_eq_true_iff] at he
  unfold autoScore
  have h1 : 1 ≤ (countTemplateFieldHits e.template r : Int) := by
    exact_mod_cast he.2
  have h2 : 0 ≤ (entryRequiredKeysCount e.template : Int) :=
    Int.ofNat_nonneg _
  have h3 : (0 : Int) ≤ if entryHasTypeField e.template then 100 else 0 := by
    split <;> norm_num
  linarith

/-- The `best`/`bestScore` loop computes the first-registered maximal
eligible entry: joint induction relating the loop (with and without an
incumbent) to the specification-side selection. -/
theorem bestLoop_eq_spec (r : JsonValue) :
    ∀ l : List TemplateEntry,
      (bestLoop r l none (-1) = autoSelectSpec r l)
      ∧ (∀ b : TemplateEntry,
          bestLoop r l (some b) (autoScore b.template r) =
            match autoSelectSpec r l with
            | none => some b
            | some e =>
                if autoScore e.template r > autoScore b.template r
                then some e else some b) := by
  intro l
  induction l with
  | nil => exact ⟨rfl, fun b => rfl⟩
  | cons a rest ih =>
      constructor
      · simp only [bestLoop, autoSelectSpec]
        by_cases he : autoEligible r a = true
        · rw [if_pos he, if_pos he]
          have hpos : autoScore a.template r > -1 := by
            have := autoScore_pos r a he; omega
          rw [if_pos hpos, ih.2 a]
          cases hspec : autoSelectSpec r rest with
          | none => rfl
          | some e2 => rfl
        · rw [if_neg he, if_neg he]
          exact ih.1
      · intro b
        simp only [bestLoop, autoSelectSpec]
        by_cases he : autoEligible r a = true
        · rw [if_pos he, if_pos he]
          by_cases hs : autoScore a.template r > autoScore b.template r
          · rw [if_pos hs, ih.2 a]
            cases hspec : autoSelectSpec r rest with
            | none => simp [hs]
            | some e2 =>
                by_cases h2 : autoScore e2.template r >
                    autoScore a.template r
                · have h3 : autoScore e2.template r >
                      autoScore b.template r := by omega
                  simp [h2, h3]
                · simp [h2, hs]
          · rw [if_neg hs, ih.2 b]
            cases hspec : autoSelectSpec r rest with
            | none => simp [hs]
            | some e2 =>
                by_cases h2 : autoScore e2.template r >
                    autoScore a.template r
                · by_cases h4 : autoScore e2.template r >
                      autoScore b.template r
                  · simp [h2, h4]
                  · simp [h2, h4]
                · by_cases h4 : autoScore e2.template r >
                      autoScore b.template r
                  · exfalso; omega
                  · simp [h2, h4, hs]
        · rw [if_neg he, if_neg he]
          exact ih.2 b

/-- `getBestTemplateForRecord` agrees with the specification-side Auto
selection on object records. -/
theorem getBest_eq_autoSelectSpec (templates : List TemplateEntry)
    (kvs : List (String × JsonValue)) :
    getBestTemplateForRecord templates (.obj kvs) =
      autoSelectSpec (.obj kvs) templates := by
  unfold getBestTemplateForRecord
  rw [if_neg (by simp [jsIsObjectLike])]
  by_cases he : templates.isEmpty = true
  · rw [if_pos (by simp [he])]
    rw [List.isEmpty_iff] at he
    subst he
    rfl
  · rw [if_neg (by simp [Bool.not_eq_true] at he ⊢; exact he)]
    exact (bestLoop_eq_spec (.obj kvs) templates).1

/-- The record of the concrete Auto-selection example: four populated
string fields. -/
def recScoring : JsonValue :=
  .obj [("a", .str "va"), ("b", .str "vb"), ("c", .str "vc"),
        ("d", .str "vd")]

/-- Template A of the example: requires one key, hits three fields. -/
def tplThreeHits : JsonValue :=
  .obj [("templateVersion", .num 1),
        ("templateName", .str "A"),
        ("match", .obj [("requiredKeys", .arr [.str "a"])]),
        ("layout", .arr [.obj [("section", .str "Main"),
          ("fields", .arr [
            .obj [("path", .str "a"), ("label", .str "A")],
            .obj [("path", .str "b"), ("label", .str "B")],
            .obj [("path", .str "c"), ("label", .str "C")]])]])]

/-- Template B of the example: requires three keys, hits one field. -/
def tplOneHit : JsonValue :=
  .obj [("templateVersion", .num 1),
        ("templateName", .str "B"),
        ("match", .obj [("requiredKeys",
          .arr [.str "a", .str "b", .str "c"])]),
        ("layout", .arr [.obj [("section", .str "Main"),
          ("fields", .arr [
            .obj [("path", .str "d"), ("label", .str "D")]])]])]

/-- Registry entry for template A. -/
def entryThreeHits : TemplateEntry := ⟨"A", tplThreeHits⟩

/-- Registry entry for template B (registered first). -/
def entryOneHit : TemplateEntry := ⟨"B", tplOneHit⟩

/-- C1: template selection.  Selection mode None (the falsy id) yields
null; an explicit selection yields the found entry exactly when its
template matches the record, and null otherwise (including an unknown
id); Auto agrees with the specification-side selection — only matching
templates with at least one hit are considered, each scored
`hits*1000 + requiredKeyCount*10 + (100 when a typeField constraint is
declared)`, the highest score winning and ties broken by registry order
(first registered wins).  Concretely, a matching template with 3 hits
and 1 required key (score 3010) beats a matching template with 1 hit
and 3 required keys (score 1030) even when the latter is registered
first. -/
theorem spec_c1_template_selection (kvs : List (String × JsonValue))
    (registry : List TemplateEntry) (sel : String) :
    (getTemplateForRecord ⟨registry, ""⟩ (.obj kvs) = none)
    ∧ (sel ≠ "" → sel ≠ TEMPLATE_AUTO_ID →
        getTemplateForRecord ⟨registry, sel⟩ (.obj kvs) =
          match registry.find? (fun e => e.id = sel) with
          | some e => if templateMatchesRecord e.template (.obj kvs)
                      then some e else none
          | none => none)
    ∧ (getTemplateForRecord ⟨registry, TEMPLATE_AUTO_ID⟩ (.obj kvs) =
        autoSelectSpec (.obj kvs) registry)
    ∧ countTemplateFieldHits tplThreeHits recScoring = 3
    ∧ entryRequiredKeysCount tplThreeHits = 1
    ∧ countTemplateFieldHits tplOneHit recScoring = 1
    ∧ entryRequiredKeysCount tplOneHit = 3
    ∧ templateMatchesRecord tplThreeHits recScoring = true
    ∧ templateMatchesRecord tplOneHit recScoring = true
    ∧ autoScore tplThreeHits recScoring = 3010
    ∧ autoScore tplOneHit recScoring = 1030
    ∧ getBestTemplateForRecord [entryOneHit, entryThreeHits] recScoring =
        some entryThreeHits := by
  refine ⟨rfl, ?_, ?_, by decide, by decide, by decide, by decide,
    by decide, by decide, by decide, by decide, rfl⟩
  · intro h1 h2
    unfold getTemplateForRecord
    rw [if_neg h1, if_neg h2]
    unfold getExplicitActiveTemplate
    rw [if_neg h1, if_neg h2]
    cases hf : List.find? (fun e => e.id = sel) registry with
    | none => rfl
    | some e => rfl
  · unfold getTemplateForRecord
    rw [if_neg (fun h => by rw [TEMPLATE_AUTO_ID] at h; simp at h),
      if_pos rfl]
    exact getBest_eq_autoSelectSpec registry kvs

/-- C1 witness: the explicit-selection conjunct applied at the concrete
registry and record (selection id "B", which matches, is returned). -/
theorem spec_c1_template_selection_witness :
    getTemplateForRecord ⟨[entryOneHit, entryThreeHits], "B"⟩ recScoring =
      match List.find? (fun e => e.id = "B")
          [entryOneHit, entryThreeHits] with
      | some e => if templateMatchesRecord e.template recScoring
                  then some e else none
      | none => none := by
  exact (spec_c1_template_selection
    [("a", .str "va"), ("b", .str "vb"), ("c", .str "vc"),
     ("d", .str "vd")]
    [entryOneHit, entryThreeHits] "B").2.1 (by decide) (by decide)

/-- C8 witness: the common-key criterion at a concrete three-item
sample — the key present in two of three key sets meets the 60%
threshold. -/
theorem spec_c8_dataset_detection_witness :
    keyIsCommon [["a"], ["a"], ["b"]] "a" = true ↔
      (3/5 : ℚ) ≤ ((([["a"], ["a"], ["b"]] : List (List String)).filter
        (fun s => "a" ∈ s)).length : ℚ) /
        (([["a"], ["a"], ["b"]] : List (List String)).length : ℚ) :=
  spec_c8_dataset_detection.1 [["a"], ["a"], ["b"]] "a" (by decide)
